import Mathlib

/-!
Verification of the Reviews app (Shopify product-review ingestion and
moderation) against its natural-language specification.

The development shallowly embeds the two route modules:
* `app/routes/api.proxy.reviews.ts` — the public ingestion endpoint
  (`loader` for GET listing, `action` for POST create), embedded below as
  `proxyLoader` and `proxyAction`;
* the admin moderation route (`app._index.tsx`) — its `loader` and `action`,
  embedded as `adminLoader` and `adminAction`.

External effects (object-storage upload outcome, database create failure,
generated row id/timestamp) are passed in explicitly as a `World` record, so
every endpoint is a pure executable function from request + world + database
state to response + new database state.

Strings that the JavaScript source coerces with `Number(...)` and
`BigInt(...)` are parsed by `jsStringToNumber` / `jsStringToBigInt`, which
model the JavaScript string-numeric grammars (decimal with optional fraction
and exponent, and 0x/0o/0b radix prefixes); numeric values are modelled as
exact rationals — no claim below depends on float64 rounding.
-/

namespace Reviews

/-- Moderation status of a review, from the `ReviewStatus` SQL enum
(`'pending' | 'approved' | 'trashed'`). -/
inductive ReviewStatus
  | pending
  | approved
  | trashed
deriving DecidableEq, Repr

/-- A persisted review row, from the `Review` table of the schema.
`rating` is carried as an exact rational because the endpoint passes the
JavaScript number it parsed straight to `create`; `createdAt` is an abstract
integer timestamp used only for ordering. The `updatedAt` column is not
modelled: no claim concerns it. -/
structure Review where
  id : String
  shopDomain : String
  productId : Int
  productHandle : Option String
  rating : ℚ
  title : Option String
  body : String
  authorName : String
  authorLastName : Option String
  authorEmail : Option String
  mediaUrl : Option String
  status : ReviewStatus
  createdAt : Int
deriving DecidableEq, Repr

/-! ## JavaScript value and coercion modelling -/

/-- A value found in a parsed request body (after `readBody`): a string
field, an explicit JSON `null`, or a `File` object from a multipart form.
Absence of a key is represented by `Option.none` at the lookup
(`undefined` in JavaScript). -/
inductive JSVal
  | str (s : String)
  | jsNull
  | jsFile
deriving DecidableEq, Repr

/-- Lookup of `body.k` on the parsed body object: `none` = `undefined`. -/
def bodyGet (b : List (String × JSVal)) (k : String) : Option JSVal :=
  (b.find? (fun p => p.1 == k)).map (fun p => p.2)

/-- JavaScript `a ?? b`: `b` exactly when `a` is `undefined` or `null`. -/
def jsCoalesce (a b : Option JSVal) : Option JSVal :=
  match a with
  | none => b
  | some .jsNull => b
  | some v => some v

/-- The source's `toStr`: `null`/`undefined` become `""`, strings pass
through, `File` values become `""` (never stringify a file). -/
def toStr : Option JSVal → String
  | none => ""
  | some .jsNull => ""
  | some .jsFile => ""
  | some (.str s) => s

/-- JavaScript `s || null` on a string: `none` for the empty string. -/
def strOrNull (s : String) : Option String :=
  if s == "" then none else some s

/-- Digits of a numeric literal in base `base` (base ≤ 16, upper or lower
case hex letters). -/
def digitValue (c : Char) : Option Nat :=
  if '0' ≤ c ∧ c ≤ '9' then some (c.toNat - 48)
  else if 'a' ≤ c ∧ c ≤ 'f' then some (c.toNat - 87)
  else if 'A' ≤ c ∧ c ≤ 'F' then some (c.toNat - 55)
  else none

/-- Parse a non-empty digit string in base `base`; `none` if empty or any
character is not a digit of that base. -/
def parseDigitsBase (base : Nat) (cs : List Char) : Option Nat :=
  match cs with
  | [] => none
  | _ =>
    cs.foldl
      (fun acc c =>
        match acc, digitValue c with
        | some a, some d => if d < base then some (base * a + d) else none
        | _, _ => none)
      (some 0)

/-- All-decimal-digit check, empty list allowed. -/
def allDec (cs : List Char) : Bool :=
  cs.all fun c => decide ('0' ≤ c ∧ c ≤ '9')

/-- Value of a possibly-empty decimal digit list. -/
def decValue (cs : List Char) : Nat :=
  cs.foldl (fun a c => 10 * a + (c.toNat - 48)) 0

/-- Split a char list at the first occurrence of `sep` into everything
before and everything after, `none` if `sep` does not occur. -/
def splitFirst (sep : Char) : List Char → Option (List Char × List Char)
  | [] => none
  | c :: cs =>
    if c == sep then some ([], cs)
    else (splitFirst sep cs).map (fun p => (c :: p.1, p.2))

/-- Whitespace characters stripped by string trimming (the ASCII set; no
claim below involves exotic Unicode whitespace). -/
def isWs (c : Char) : Bool :=
  c == ' ' || c == '\t' || c == '\n' || c == '\r'

/-- String trimming, as a character list. -/
def jsTrim (s : String) : List Char :=
  ((s.toList.dropWhile isWs).reverse.dropWhile isWs).reverse

/-- Split a numeric literal into mantissa and optional exponent part at the
first `e` or `E`. -/
def splitExp (cs : List Char) : List Char × Option (List Char) :=
  match splitFirst 'e' cs with
  | some (m, e) => (m, some e)
  | none =>
    match splitFirst 'E' cs with
    | some (m, e) => (m, some e)
    | none => (cs, none)

/-- Parse a decimal mantissa `digits`, `digits.digits`, `.digits` or
`digits.` (at least one digit overall), as scaled-integer value and
fraction length: the mantissa denotes `value / 10 ^ fracLen`. -/
def parseMantissa (cs : List Char) : Option (Nat × Nat) :=
  match splitFirst '.' cs with
  | none =>
    if !cs.isEmpty && allDec cs then some (decValue cs, 0) else none
  | some (ip, fp) =>
    if (!ip.isEmpty || !fp.isEmpty) && allDec ip && allDec fp then
      some (decValue ip * 10 ^ fp.length + decValue fp, fp.length)
    else none

/-- Parse an exponent part (optional sign then non-empty decimal digits) as
sign flag and magnitude. -/
def parseExpPart (cs : List Char) : Option (Bool × Nat) :=
  match cs with
  | '-' :: rest =>
    if !rest.isEmpty && allDec rest then some (true, decValue rest) else none
  | '+' :: rest =>
    if !rest.isEmpty && allDec rest then some (false, decValue rest) else none
  | _ =>
    if !cs.isEmpty && allDec cs then some (false, decValue cs) else none

/-- Assemble the rational value of a signed decimal literal
`± (value / 10 ^ fracLen) * 10 ^ (± expMag)`. -/
def mkJsNumber (neg : Bool) (value fracLen : Nat) (expNeg : Bool)
    (expMag : Nat) : ℚ :=
  let num : Nat := if expNeg then value else value * 10 ^ expMag
  let den : Nat := if expNeg then 10 ^ fracLen * 10 ^ expMag else 10 ^ fracLen
  mkRat (if neg then Int.negOfNat num else Int.ofNat num) den

/-- Parse an unsigned decimal numeric literal, with optional fraction and
optional exponent, applying the sign `neg`. -/
def parseDecimalLit (neg : Bool) (cs : List Char) : Option ℚ :=
  match splitExp cs with
  | (m, none) =>
    (parseMantissa m).map (fun p => mkJsNumber neg p.1 p.2 false 0)
  | (m, some e) =>
    match parseMantissa m, parseExpPart e with
    | some p, some ex => some (mkJsNumber neg p.1 p.2 ex.1 ex.2)
    | _, _ => none

/-- JavaScript `Number(string)` restricted to finite results: `none` stands
for `NaN` or `±Infinity`, which the endpoint's `Number.isFinite` guard
rejects uniformly. Models the string-numeric grammar: whitespace trimming,
empty string ↦ 0, `Infinity` forms ↦ non-finite, `0x`/`0o`/`0b` radix
literals, and signed decimal with optional fraction and exponent. Values are
exact rationals (float64 rounding is not modelled; no claim depends on it). -/
def jsStringToNumber (s : String) : Option ℚ :=
  match jsTrim s with
  | [] => some 0
  | t =>
    if t == "Infinity".toList || t == "+Infinity".toList
        || t == "-Infinity".toList then none
    else
      match t with
      | '0' :: 'x' :: rest => (parseDigitsBase 16 rest).map (fun n => ((n : ℚ)))
      | '0' :: 'X' :: rest => (parseDigitsBase 16 rest).map (fun n => ((n : ℚ)))
      | '0' :: 'o' :: rest => (parseDigitsBase 8 rest).map (fun n => ((n : ℚ)))
      | '0' :: 'O' :: rest => (parseDigitsBase 8 rest).map (fun n => ((n : ℚ)))
      | '0' :: 'b' :: rest => (parseDigitsBase 2 rest).map (fun n => ((n : ℚ)))
      | '0' :: 'B' :: rest => (parseDigitsBase 2 rest).map (fun n => ((n : ℚ)))
      | '-' :: rest => parseDecimalLit true rest
      | '+' :: rest => parseDecimalLit false rest
      | cs => parseDecimalLit false cs

/-- JavaScript `BigInt(string)`: `none` models a thrown `SyntaxError`.
Whitespace is trimmed, the empty string is `0n`, `0x`/`0o`/`0b` radix
literals are accepted, otherwise an optionally signed run of decimal digits
(no fraction, no exponent). -/
def jsStringToBigInt (s : String) : Option Int :=
  match jsTrim s with
  | [] => some 0
  | t =>
    match t with
    | '0' :: 'x' :: rest => (parseDigitsBase 16 rest).map Int.ofNat
    | '0' :: 'X' :: rest => (parseDigitsBase 16 rest).map Int.ofNat
    | '0' :: 'o' :: rest => (parseDigitsBase 8 rest).map Int.ofNat
    | '0' :: 'O' :: rest => (parseDigitsBase 8 rest).map Int.ofNat
    | '0' :: 'b' :: rest => (parseDigitsBase 2 rest).map Int.ofNat
    | '0' :: 'B' :: rest => (parseDigitsBase 2 rest).map Int.ofNat
    | '-' :: rest =>
      if !rest.isEmpty && allDec rest then some (Int.negOfNat (decValue rest))
      else none
    | '+' :: rest =>
      if !rest.isEmpty && allDec rest then some (Int.ofNat (decValue rest))
      else none
    | cs =>
      if !cs.isEmpty && allDec cs then some (Int.ofNat (decValue cs)) else none

/-! ## HTTP response modelling (`safeJson`, CORS, pre-flight) -/

/-- Shape of a JSON response body produced by the proxy route. -/
inductive RespBody
  | empty
  | errMsg (msg : String)
  | reviewList (rs : List Review)
  | reviewCreated (r : Review)
deriving DecidableEq, Repr

/-- An HTTP response: status, header list, body. -/
structure HttpResponse where
  status : Nat
  headers : List (String × String)
  body : RespBody
deriving DecidableEq, Repr

/-- The `CORS_HEADERS` constant of the proxy route. -/
def CORS_HEADERS : List (String × String) :=
  [("Access-Control-Allow-Origin", "*"),
   ("Access-Control-Allow-Methods", "GET, POST, OPTIONS"),
   ("Access-Control-Allow-Headers", "Content-Type, Authorization"),
   ("Access-Control-Expose-Headers", "Content-Type")]

/-- `Headers.set`: replace an existing entry for the key or append one. -/
def setHeader (hs : List (String × String)) (kv : String × String) :
    List (String × String) :=
  if hs.any (fun p => p.1 == kv.1) then
    hs.map (fun p => if p.1 == kv.1 then kv else p)
  else hs ++ [kv]

/-- Lookup of a response header by name. -/
def headerLookup (hs : List (String × String)) (k : String) : Option String :=
  (hs.find? (fun p => p.1 == k)).map (fun p => p.2)

/-- The route's `safeJson`: JSON content type (no call site passes its own
headers) and every CORS header set on every response. -/
def safeJson (body : RespBody) (status : Nat) : HttpResponse :=
  { status := status
    headers := CORS_HEADERS.foldl setHeader [("Content-Type", "application/json")]
    body := body }

/-- The 204 pre-flight response of `handleOptions`. -/
def optionsResp : HttpResponse :=
  { status := 204, headers := CORS_HEADERS, body := .empty }

/-! ## Request modelling and tenant resolution -/

/-- A binary file carried under the `media` multipart field, as produced by
`readBody` (only present when it is a `File` of size > 0). -/
structure UploadFile where
  name : String
  size : Nat
  fileType : String
deriving DecidableEq, Repr

/-- A request to the proxy route, after `readBody` has parsed the body:
header and query-parameter association lists (header names lowercased, as
`Headers.get` is case-insensitive), the host of the request URL, the parsed
body object, and the multipart `media` file if one was sent. -/
structure ProxyRequest where
  method : String
  headers : List (String × String)
  query : List (String × String)
  urlHost : String
  body : List (String × JSVal)
  mediaFile : Option UploadFile
deriving DecidableEq, Repr

/-- `request.headers.get(k)`: `none` models `null` (absent header). -/
def headerGet (req : ProxyRequest) (k : String) : Option String :=
  (req.headers.find? (fun p => p.1 == k)).map (fun p => p.2)

/-- `url.searchParams.get(k)`: `none` models `null` (absent parameter). -/
def queryGet (req : ProxyRequest) (k : String) : Option String :=
  (req.query.find? (fun p => p.1 == k)).map (fun p => p.2)

/-- JavaScript truthiness of a string-or-null value. -/
def strTruthy : Option String → Bool
  | none => false
  | some s => !(s == "")

/-- JavaScript `a || b` on string-or-null values: keep `a` iff truthy. -/
def jsOrStr (a b : Option String) : Option String :=
  match a with
  | some s => if s == "" then b else some s
  | none => b

/-- ASCII lowercasing of a character's code point. -/
def lowerCode (c : Char) : Nat :=
  if 65 ≤ c.toNat ∧ c.toNat ≤ 90 then c.toNat + 32 else c.toNat

/-- The regex test `/\.myshopify\.com$/i`: the host ends, case-insensitively,
in the literal suffix `.myshopify.com`. -/
def endsWithMyshopify (h : String) : Bool :=
  let hl := h.toList.map lowerCode
  let suf := ".myshopify.com".toList.map Char.toNat
  decide (suf.length ≤ hl.length) && hl.drop (hl.length - suf.length) == suf

/-- `getShopFromRequest`: the `x-shopify-shop-domain` header if truthy, else
the `shop` query parameter if truthy, else the first truthy of
`x-forwarded-host`, `host`, and the URL host, provided it matches the
`.myshopify.com` suffix test; otherwise `undefined`. -/
def getShopFromRequest (req : ProxyRequest) : Option String :=
  let hdr := headerGet req "x-shopify-shop-domain"
  if strTruthy hdr then hdr
  else
    let q := queryGet req "shop"
    if strTruthy q then q
    else
      match jsOrStr (headerGet req "x-forwarded-host")
          (jsOrStr (headerGet req "host") (some req.urlHost)) with
      | some h => if !(h == "") && endsWithMyshopify h then some h else none
      | none => none

/-! ## Body-field normalization (the alias table of the POST handler) -/

/-- `toStr(body.productId ?? body.product_id)`. -/
def normProductIdRaw (b : List (String × JSVal)) : String :=
  toStr (jsCoalesce (bodyGet b "productId") (bodyGet b "product_id"))

/-- `toStr(body.rating)`. -/
def normRatingRaw (b : List (String × JSVal)) : String :=
  toStr (bodyGet b "rating")

/-- `toStr(body.title) ? toStr(body.title) : null`. -/
def normTitle (b : List (String × JSVal)) : Option String :=
  strOrNull (toStr (bodyGet b "title"))

/-- `toStr(body.firstName ?? body.name ?? body.author_name)`. -/
def normFirstName (b : List (String × JSVal)) : String :=
  toStr (jsCoalesce (bodyGet b "firstName")
    (jsCoalesce (bodyGet b "name") (bodyGet b "author_name")))

/-- `toStr(body.lastName ?? body.family_name ?? body.last_name) || null`. -/
def normLastName (b : List (String × JSVal)) : Option String :=
  strOrNull (toStr (jsCoalesce (bodyGet b "lastName")
    (jsCoalesce (bodyGet b "family_name") (bodyGet b "last_name"))))

/-- `toStr(body.email ?? body.author_email) || null`. -/
def normAuthorEmail (b : List (String × JSVal)) : Option String :=
  strOrNull (toStr (jsCoalesce (bodyGet b "email") (bodyGet b "author_email")))

/-- The review text: `body.body !== undefined ? toStr(body.body)
: body.review !== undefined ? toStr(body.review) : ""`. A present `null`
counts as defined and stringifies to the empty string. -/
def normText (b : List (String × JSVal)) : String :=
  match bodyGet b "body" with
  | some v => toStr (some v)
  | none =>
    match bodyGet b "review" with
    | some v => toStr (some v)
    | none => ""

/-- `toStr(body.mediaUrl ?? body.media_url) || null`. -/
def normMediaUrlFromBody (b : List (String × JSVal)) : Option String :=
  strOrNull (toStr (jsCoalesce (bodyGet b "mediaUrl") (bodyGet b "media_url")))

/-- `toStr(body.product_handle) ? toStr(body.product_handle) : null`. -/
def normProductHandle (b : List (String × JSVal)) : Option String :=
  strOrNull (toStr (bodyGet b "product_handle"))

/-! ## Status filter resolution -/

/-- Modelled from the spec: the Prisma-generated `ReviewStatus` enum object,
a small closed enumeration with exactly the keys `pending`, `approved`,
`trashed`, each mapping to the status of the same name (the generated client
code is not part of the repository sources). `none` models both a failed
`k in ReviewStatus` membership test and an `undefined` `ReviewStatus[k]`
member access. -/
def reviewStatusLookup : String → Option ReviewStatus
  | "pending" => some .pending
  | "approved" => some .approved
  | "trashed" => some .trashed
  | _ => none

/-- Public GET listing status resolution:
`statusParam = url.searchParams.get("status") ?? "approved"`, then
`statusParam in ReviewStatus ? statusParam : "approved"`, then
`ReviewStatus[normalizedStatusKey]`. -/
def resolvePublicStatus (q : Option String) : ReviewStatus :=
  let statusParam := q.getD "approved"
  let key := if (reviewStatusLookup statusParam).isSome then statusParam
             else "approved"
  (reviewStatusLookup key).getD .approved

/-- Admin moderation listing status resolution:
`statusParam = url.searchParams.get("status") ?? "pending"`, then
`ReviewStatus[statusParam] ?? ReviewStatus.pending`. -/
def resolveAdminStatus (q : Option String) : ReviewStatus :=
  (reviewStatusLookup (q.getD "pending")).getD .pending

/-! ## Review repository (Prisma calls, modelled over a list of rows) -/

/-- The `where` clause of both listing calls: tenant scope, status, and an
optional product filter. -/
def matchesWhere (shop : String) (st : ReviewStatus) (pid : Option Int)
    (r : Review) : Bool :=
  r.shopDomain == shop && (r.status == st
    && (match pid with | none => true | some p => r.productId == p))

/-- Insert a review into a list kept in descending `createdAt` order. -/
def insertByCreatedAtDesc (r : Review) : List Review → List Review
  | [] => [r]
  | x :: xs =>
    if r.createdAt ≤ x.createdAt then x :: insertByCreatedAtDesc r xs
    else r :: x :: xs

/-- Sort reviews by `createdAt` descending (the `orderBy` of both listings). -/
def sortByCreatedAtDesc : List Review → List Review
  | [] => []
  | x :: xs => insertByCreatedAtDesc x (sortByCreatedAtDesc xs)

/-- Modelled from the spec: `findMany(tenant, statusFilter, productIdFilter?,
limit, orderByCreatedAtDesc)` — filter by the `where` clause, newest first,
capped at `limit` rows. -/
def prismaFindMany (db : List Review) (shop : String) (st : ReviewStatus)
    (pid : Option Int) (limit : Nat) : List Review :=
  (sortByCreatedAtDesc (db.filter (matchesWhere shop st pid))).take limit

/-! ## Public GET listing (`loader` of the proxy route) -/

/-- External outcome feeding the loader: whether the `findMany` call throws
(database failure). -/
structure LoaderWorld where
  dbThrows : Bool
deriving DecidableEq, Repr

/-- JavaScript `a ?? b` on string-or-null values (keeps an empty string). -/
def jsCoalesceStr (a b : Option String) : Option String :=
  match a with
  | none => b
  | some s => some s

/-- The GET `loader` of the proxy route: pre-flight passthrough, tenant
resolution (401 on failure), optional `product_id`/`productId` parse (400 on
a `BigInt` throw), status-filter coercion with `approved` fallback, then the
tenant-scoped `findMany` capped at 200 (500 on a database throw). -/
def proxyLoader (req : ProxyRequest) (w : LoaderWorld) (db : List Review) :
    HttpResponse :=
  if req.method == "OPTIONS" then optionsResp
  else
    match getShopFromRequest req with
    | none =>
      safeJson (.errMsg "Missing shop. Ensure you call via the App Proxy (/apps/<subpath>) or add ?shop=<domain>.") 401
    | some shop =>
      if strTruthy (jsCoalesceStr (queryGet req "product_id")
          (queryGet req "productId")) then
        match jsStringToBigInt ((jsCoalesceStr (queryGet req "product_id")
            (queryGet req "productId")).getD "") with
        | none => safeJson (.errMsg "Invalid product_id") 400
        | some pid =>
          if w.dbThrows then safeJson (.errMsg "Failed to load reviews") 500
          else
            safeJson (.reviewList (prismaFindMany db shop
              (resolvePublicStatus (queryGet req "status")) (some pid) 200)) 200
      else
        if w.dbThrows then safeJson (.errMsg "Failed to load reviews") 500
        else
          safeJson (.reviewList (prismaFindMany db shop
            (resolvePublicStatus (queryGet req "status")) none 200)) 200

/-! ## Public POST submission (`action` of the proxy route) -/

/-- Outcome of the object-storage upload call for the `media` file:
either the adapter reports an error object (whose `message` the code reads),
or the upload succeeds and `getPublicUrl` yields the given string (the empty
string standing for an absent/empty `publicUrl`, which `|| null` drops).
The storage object path and filename the handler computes have no effect
observable in any claim and are not modelled. -/
inductive StorageOutcome
  | uploadError (msg : String)
  | uploaded (publicUrl : String)
deriving DecidableEq, Repr

/-- External state feeding one POST request: whether the Supabase client is
configured (`SUPABASE_URL` and `SUPABASE_SERVICE_ROLE_KEY` both set),
whether body parsing throws (an uncaught `formData()` failure), the storage
outcome if an upload is attempted, whether `prisma.review.create` throws,
and the id/timestamp the database assigns to a created row. -/
structure World where
  supabaseConfigured : Bool
  parseThrows : Bool
  storage : StorageOutcome
  createThrows : Bool
  newId : String
  now : Int
deriving DecidableEq, Repr

/-- Result of one POST request: the HTTP response, the database rows after
the request, the row created (if any), and whether a storage upload was
attempted. -/
structure ActionOut where
  resp : HttpResponse
  db : List Review
  created : Option Review
  didUpload : Bool
deriving DecidableEq, Repr

/-- The row passed to `prisma.review.create`: resolved tenant, parsed
product id, normalized fields, the final media URL, and `status` hard-coded
to `ReviewStatus.pending`. -/
def createdReview (w : World) (shop : String) (pid : Int) (rating : ℚ)
    (b : List (String × JSVal)) (mediaUrl : Option String) : Review :=
  { id := w.newId
    shopDomain := shop
    productId := pid
    productHandle := normProductHandle b
    rating := rating
    title := normTitle b
    body := normText b
    authorName := normFirstName b
    authorLastName := normLastName b
    authorEmail := normAuthorEmail b
    mediaUrl := mediaUrl
    status := .pending
    createdAt := w.now }

/-- The `prisma.review.create` step of the POST handler: a throw is caught
by the handler's boundary and reported as the generic 500; otherwise the
created row is returned with a 200 and appended to the database. -/
def doCreate (w : World) (shop : String) (pid : Int) (rating : ℚ)
    (b : List (String × JSVal)) (mediaUrl : Option String) (db : List Review)
    (didUp : Bool) : ActionOut :=
  if w.createThrows then
    ⟨safeJson (.errMsg "Failed to submit review") 500, db, none, didUp⟩
  else
    ⟨safeJson (.reviewCreated (createdReview w shop pid rating b mediaUrl)) 200,
      db ++ [createdReview w shop pid rating b mediaUrl],
      some (createdReview w shop pid rating b mediaUrl), didUp⟩

/-- The POST `action` of the proxy route: pre-flight passthrough, method
check, tenant resolution, body parsing, field normalization, the validation
sequence (product id, rating, name and text), the optional media upload
(configuration check, 20 MiB size cap, upload with its error surfaced as a
400, public-URL override of the body media URL), and the create. Any
uncaught throw (body parse, create) is reported as the generic 500. -/
def proxyAction (req : ProxyRequest) (w : World) (db : List Review) :
    ActionOut :=
  if req.method == "OPTIONS" then ⟨optionsResp, db, none, false⟩
  else if !(req.method == "POST") then
    ⟨safeJson (.errMsg "Method not allowed") 405, db, none, false⟩
  else
    match getShopFromRequest req with
    | none =>
      ⟨safeJson (.errMsg "Missing shop. Ensure you post to the App Proxy (/apps/<subpath>) or add ?shop=<domain>.") 401,
        db, none, false⟩
    | some shop =>
      if w.parseThrows then
        ⟨safeJson (.errMsg "Failed to submit review") 500, db, none, false⟩
      else
        if normProductIdRaw req.body == "" then
          ⟨safeJson (.errMsg "product_id is required") 400, db, none, false⟩
        else
          match jsStringToBigInt (normProductIdRaw req.body) with
          | none => ⟨safeJson (.errMsg "Invalid product_id") 400, db, none, false⟩
          | some pid =>
            match jsStringToNumber (normRatingRaw req.body) with
            | none =>
              ⟨safeJson (.errMsg "rating must be between 1 and 5") 400, db, none, false⟩
            | some rating =>
              if rating < 1 ∨ rating > 5 then
                ⟨safeJson (.errMsg "rating must be between 1 and 5") 400, db, none, false⟩
              else if normFirstName req.body == "" ∨ normText req.body == "" then
                ⟨safeJson (.errMsg "name and review body are required") 400, db, none, false⟩
              else
                match req.mediaFile with
                | some f =>
                  if !w.supabaseConfigured then
                    ⟨safeJson (.errMsg "Supabase is not configured. Set SUPABASE_URL and SUPABASE_SERVICE_ROLE_KEY.") 400,
                      db, none, false⟩
                  else if f.size > 20 * 1024 * 1024 then
                    ⟨safeJson (.errMsg "File is too large. Please keep it under 20MB.") 400,
                      db, none, false⟩
                  else
                    match w.storage with
                    | .uploadError m =>
                      ⟨safeJson (.errMsg m) 400, db, none, true⟩
                    | .uploaded u =>
                      doCreate w shop pid rating req.body (strOrNull u) db true
                | none =>
                  doCreate w shop pid rating req.body
                    (normMediaUrlFromBody req.body) db false

/-! ## Admin moderation endpoints (loader and action of the index route) -/

/-- Body of a moderation response: a plain text `Response` or the
ok-true JSON acknowledgement. -/
inductive ModBody
  | text (s : String)
  | okJson
deriving DecidableEq, Repr

/-- Result of one moderation action call: status, body, and the database
rows after the call. -/
structure ModOut where
  status : Nat
  body : ModBody
  db : List Review
deriving DecidableEq, Repr

/-- `form.get(k)` on the moderation form: `none` models `null`. -/
def formGet (form : List (String × String)) (k : String) : Option String :=
  (form.find? (fun p => p.1 == k)).map (fun p => p.2)

/-- `prisma.review.update({where:{id}, data:{status}})` over the row list. -/
def updateStatus (db : List Review) (id : String) (st : ReviewStatus) :
    List Review :=
  db.map (fun r => if r.id == id then { r with status := st } else r)

/-- The moderation `action`: authenticated tenant required, then
`String(form.get("intent") || "")` and `String(form.get("id") || "")`, a 400
for a missing id, a single tenant-scoped existence check answering 404 for an
absent or foreign row, then one unconditional write per recognized intent
(`approve`/`trash`/`restore` set the corresponding status, `delete` removes
the row) and a 400 for an unknown intent. -/
def adminAction (session : Option String) (form : List (String × String))
    (db : List Review) : ModOut :=
  match session with
  | none => ⟨401, .text "Unauthorized", db⟩
  | some shop =>
    if (formGet form "id").getD "" == "" then ⟨400, .text "Missing review id", db⟩
    else
      match db.find? (fun r => r.id == (formGet form "id").getD "") with
      | none => ⟨404, .text "Not found", db⟩
      | some r =>
        if !(r.shopDomain == shop) then ⟨404, .text "Not found", db⟩
        else if (formGet form "intent").getD "" == "approve" then
          ⟨200, .okJson, updateStatus db ((formGet form "id").getD "") .approved⟩
        else if (formGet form "intent").getD "" == "trash" then
          ⟨200, .okJson, updateStatus db ((formGet form "id").getD "") .trashed⟩
        else if (formGet form "intent").getD "" == "restore" then
          ⟨200, .okJson, updateStatus db ((formGet form "id").getD "") .pending⟩
        else if (formGet form "intent").getD "" == "delete" then
          ⟨200, .okJson, db.filter (fun r => !(r.id == (formGet form "id").getD ""))⟩
        else ⟨400, .text "Unknown intent", db⟩

/-- Result of the moderation listing loader. -/
structure AdminListOut where
  status : Nat
  reviews : List Review
deriving DecidableEq, Repr

/-- The moderation `loader`: authenticated tenant required (401 otherwise),
status filter coerced with the `pending` fallback, tenant-scoped `findMany`
newest first capped at 100. -/
def adminLoader (session : Option String) (query : List (String × String))
    (db : List Review) : AdminListOut :=
  match session with
  | none => ⟨401, []⟩
  | some shop =>
    ⟨200, prismaFindMany db shop (resolveAdminStatus
      ((query.find? (fun p => p.1 == "status")).map (fun p => p.2))) none 100⟩

/-! ## The claims -/

/-- The moderation state machine exactly as the specification draws it:
`approve` only from `pending` (to `approved`), `trash` only from `pending`
or `approved` (to `trashed`), `restore` only from `trashed` (to `pending`). -/
def claimStatusEdge : ReviewStatus → String → ReviewStatus → Bool
  | .pending, "approve", .approved => true
  | .pending, "trash", .trashed => true
  | .approved, "trash", .trashed => true
  | .trashed, "restore", .pending => true
  | _, _, _ => false

/-- A trashed review of the calling tenant, used to exercise the moderation
action outside the specified state machine. -/
def c1Review : Review :=
  { id := "r1", shopDomain := "s.myshopify.com", productId := 1,
    productHandle := none, rating := 5, title := none, body := "Good",
    authorName := "Amy", authorLastName := none, authorEmail := none,
    mediaUrl := none, status := .trashed, createdAt := 0 }

/-- C1, counterexample: the moderation action performs the `approve` write
without inspecting the current status. On a `trashed` review of the caller's
tenant, `intent=approve` changes the status to `approved`, although
`trashed --approve--> approved` is not an edge of the specified state
machine — refuting that a status change is performed only along the defined
edges. -/
theorem C1_counterexample :
    (adminAction (some "s.myshopify.com")
        [("intent", "approve"), ("id", "r1")] [c1Review]).db
      = [{ c1Review with status := .approved }] ∧
    c1Review.status = .trashed ∧
    claimStatusEdge .trashed "approve" .approved = false := by
  decide

/-- C1 (amended): for an existing review of the caller's tenant, the
moderation action applies each intent's write unconditionally, regardless of
the current status: `approve` sets `approved`, `trash` sets `trashed`,
`restore` sets `pending`, `delete` removes the review, and any other intent
is rejected with a 400 and changes nothing. -/
theorem C1_intents_applied_unconditionally (shop id : String)
    (form : List (String × String)) (db : List Review) (r : Review)
    (hid : (formGet form "id").getD "" = id) (hne : ¬ id = "")
    (hfind : db.find? (fun x => x.id == id) = some r)
    (hshop : r.shopDomain = shop) :
    ((formGet form "intent").getD "" = "approve" →
        adminAction (some shop) form db
          = ⟨200, .okJson, updateStatus db id .approved⟩) ∧
    ((formGet form "intent").getD "" = "trash" →
        adminAction (some shop) form db
          = ⟨200, .okJson, updateStatus db id .trashed⟩) ∧
    ((formGet form "intent").getD "" = "restore" →
        adminAction (some shop) form db
          = ⟨200, .okJson, updateStatus db id .pending⟩) ∧
    ((formGet form "intent").getD "" = "delete" →
        adminAction (some shop) form db
          = ⟨200, .okJson, db.filter (fun x => !(x.id == id))⟩) ∧
    (¬ (formGet form "intent").getD "" = "approve" →
        ¬ (formGet form "intent").getD "" = "trash" →
        ¬ (formGet form "intent").getD "" = "restore" →
        ¬ (formGet form "intent").getD "" = "delete" →
        adminAction (some shop) form db = ⟨400, .text "Unknown intent", db⟩) := by
  subst hid
  subst hshop
  refine ⟨?_, ?_, ?_, ?_, ?_⟩ <;> intros <;> simp_all [adminAction]

/-- C1 amended claim at a concrete input: trashing an existing pending
review of the calling tenant performs the `trashed` write. -/
theorem C1_intents_applied_unconditionally_witness :
    adminAction (some "s.myshopify.com")
        [("intent", "trash"), ("id", "r1")] [c1Review]
      = ⟨200, .okJson, updateStatus [c1Review] "r1" .trashed⟩ :=
  (C1_intents_applied_unconditionally "s.myshopify.com" "r1"
    [("intent", "trash"), ("id", "r1")] [c1Review] c1Review
    (by decide) (by decide) (by decide) (by decide)).2.1 (by decide)

/-- C3: every review the POST handler passes to `create` has status
`pending`, whatever the submitted body contained (the handler never reads a
`status` field; the value is hard-coded). -/
theorem C3_created_status_pending (req : ProxyRequest) (w : World)
    (db : List Review) (r : Review)
    (h : (proxyAction req w db).created = some r) :
    r.status = ReviewStatus.pending := by
  unfold proxyAction doCreate at h
  repeat' split at h
  all_goals simp at h
  all_goals subst h
  all_goals rfl

/-- C3 at a concrete input: a submission whose body carries
`status: "approved"` still yields a created review with status `pending`. -/
theorem C3_created_status_pending_witness :
    (createdReview
      { supabaseConfigured := true, parseThrows := false,
        storage := .uploaded "", createThrows := false,
        newId := "n1", now := 7 }
      "s.myshopify.com" 100 5
      [("product_id", .str "100"), ("rating", .str "5"),
       ("name", .str "Amy"), ("review", .str "Nice"),
       ("status", .str "approved")] none).status = ReviewStatus.pending :=
  C3_created_status_pending
    { method := "POST",
      headers := [("x-shopify-shop-domain", "s.myshopify.com")],
      query := [], urlHost := "app.example.com",
      body := [("product_id", .str "100"), ("rating", .str "5"),
               ("name", .str "Amy"), ("review", .str "Nice"),
               ("status", .str "approved")],
      mediaFile := none }
    { supabaseConfigured := true, parseThrows := false,
      storage := .uploaded "", createThrows := false,
      newId := "n1", now := 7 }
    [] _ (by decide)

/-- C5, counterexample: a moderation mutation carrying no id (so its id,
as the code extracts it, is the empty string, which refers to no review)
is answered with a 400 `Missing review id`, not with the 404 the claim
requires for every id referring to no review. -/
theorem C5_counterexample :
    (adminAction (some "s.myshopify.com") [] []).status = 400 ∧
    ¬ (adminAction (some "s.myshopify.com") [] []).status = 404 ∧
    ([] : List Review).find?
      (fun r => r.id == (formGet [] "id").getD "") = none := by
  decide

/-- C5 (amended): for every moderation mutation whose extracted id is
non-empty and refers to no review, or to a review of another tenant, the
call answers 404 `Not found` and leaves the database unchanged (the same
response in both cases, revealing nothing); a missing or empty id is
instead rejected earlier with a 400 `Missing review id`, also without any
write. -/
theorem C5_foreign_or_absent_id_not_found :
    (∀ shop form db,
        ¬ (formGet form "id").getD "" = "" →
        (db.find? (fun r => r.id == (formGet form "id").getD "") = none ∨
          (∃ r, db.find? (fun r => r.id == (formGet form "id").getD "") = some r ∧
            ¬ r.shopDomain = shop)) →
        adminAction (some shop) form db = ⟨404, .text "Not found", db⟩) ∧
    (∀ shop form db, (formGet form "id").getD "" = "" →
        adminAction (some shop) form db
          = ⟨400, .text "Missing review id", db⟩) := by
  constructor
  · intro shop form db hne hmiss
    simp only [adminAction]
    rw [if_neg (by simpa using hne)]
    rcases hmiss with hnone | ⟨r, hfind, hforeign⟩
    · simp only [hnone]
    · simp only [hfind]
      rw [if_pos (by simpa using hforeign)]
  · intro shop form db hid
    simp only [adminAction]
    rw [if_pos (by simpa using hid)]

/-- C5 amended claim at concrete inputs: an id belonging to another tenant
is answered 404 with no write. -/
theorem C5_foreign_or_absent_id_not_found_witness :
    adminAction (some "other.myshopify.com")
        [("intent", "approve"), ("id", "r1")] [c1Review]
      = ⟨404, .text "Not found", [c1Review]⟩ :=
  C5_foreign_or_absent_id_not_found.1 "other.myshopify.com"
    [("intent", "approve"), ("id", "r1")] [c1Review]
    (by decide) (Or.inr ⟨c1Review, by decide, by decide⟩)

/-- A fully valid multipart submission whose storage upload fails with an
internal error message. -/
def c2Request : ProxyRequest :=
  { method := "POST",
    headers := [("x-shopify-shop-domain", "s.myshopify.com")],
    query := [], urlHost := "app.example.com",
    body := [("product_id", .str "100"), ("rating", .str "5"),
             ("name", .str "Amy"), ("review", .str "Great")],
    mediaFile := some { name := "a.jpg", size := 10, fileType := "image/jpeg" } }

/-- A world in which the storage adapter reports an upload error. -/
def c2World : World :=
  { supabaseConfigured := true, parseThrows := false,
    storage := .uploadError "bucket policy violation: internal detail",
    createThrows := false, newId := "n1", now := 0 }

/-- A valid JSON submission whose body parsing throws. -/
def c2ParseRequest : ProxyRequest :=
  { method := "POST",
    headers := [("x-shopify-shop-domain", "s.myshopify.com")],
    query := [], urlHost := "app.example.com",
    body := [], mediaFile := none }

/-- A world in which reading the request body throws. -/
def c2ParseWorld : World :=
  { supabaseConfigured := true, parseThrows := true,
    storage := .uploaded "", createThrows := false, newId := "n1", now := 0 }

/-- C2, counterexample: when the object-storage upload fails, the POST
handler answers 400 — not the claimed generic 500 — and places the storage
adapter's raw error message in the response body, so the internal error
detail is returned to the caller. -/
theorem C2_counterexample :
    (proxyAction c2Request c2World []).resp.status = 400 ∧
    (proxyAction c2Request c2World []).resp.body
      = .errMsg "bucket policy violation: internal detail" ∧
    ¬ (proxyAction c2Request c2World []).resp.status = 500 := by
  decide

/-- C2 (amended): every 500 response of the POST handler carries the stable
generic body `Failed to submit review` and no row is created (this covers
body-parse and database-create failures, which are caught at the boundary);
an object-storage upload failure, however, is answered 400 with the
adapter's own error message in the response body, and also creates no row. -/
theorem C2_generic_500_except_upload_errors :
    (∀ req w db, (proxyAction req w db).resp.status = 500 →
        (proxyAction req w db).resp.body
            = RespBody.errMsg "Failed to submit review" ∧
        (proxyAction req w db).created = none ∧
        (proxyAction req w db).db = db) ∧
    (∀ req w db m, w.storage = .uploadError m →
        (proxyAction req w db).didUpload = true →
        (proxyAction req w db).resp.status = 400 ∧
        (proxyAction req w db).resp.body = RespBody.errMsg m ∧
        (proxyAction req w db).created = none ∧
        (proxyAction req w db).db = db) := by
  constructor
  · intro req w db
    unfold proxyAction doCreate
    repeat' split
    all_goals intro h5
    all_goals simp_all [safeJson, optionsResp]
  · intro req w db m herr
    unfold proxyAction doCreate
    rw [herr]
    dsimp only
    repeat' split
    all_goals intro hup
    all_goals simp_all [safeJson, optionsResp]

/-- C2 amended claim at concrete inputs: a body-parse throw yields the
generic 500 with no row; an upload error yields a 400 exposing the adapter
message, with no row. -/
theorem C2_generic_500_except_upload_errors_witness :
    ((proxyAction c2ParseRequest c2ParseWorld []).resp.body
        = RespBody.errMsg "Failed to submit review" ∧
      (proxyAction c2ParseRequest c2ParseWorld []).created = none ∧
      (proxyAction c2ParseRequest c2ParseWorld []).db = []) ∧
    ((proxyAction c2Request c2World []).resp.status = 400 ∧
      (proxyAction c2Request c2World []).resp.body
        = RespBody.errMsg "bucket policy violation: internal detail" ∧
      (proxyAction c2Request c2World []).created = none ∧
      (proxyAction c2Request c2World []).db = []) :=
  ⟨C2_generic_500_except_upload_errors.1 c2ParseRequest c2ParseWorld []
      (by decide),
   C2_generic_500_except_upload_errors.2 c2Request c2World []
      "bucket policy violation: internal detail" rfl (by decide)⟩

/-- A fully valid submission whose rating string is `4.5`. -/
def c4Request : ProxyRequest :=
  { method := "POST",
    headers := [("x-shopify-shop-domain", "s.myshopify.com")],
    query := [], urlHost := "app.example.com",
    body := [("product_id", .str "100"), ("rating", .str "4.5"),
             ("name", .str "Amy"), ("review", .str "Great")],
    mediaFile := none }

/-- A world with no failures, for C4. -/
def c4World : World :=
  { supabaseConfigured := true, parseThrows := false,
    storage := .uploaded "", createThrows := false, newId := "n1", now := 0 }

/-- A valid submission whose rating string is `7` (out of range). -/
def c4BadRequest : ProxyRequest :=
  { method := "POST",
    headers := [("x-shopify-shop-domain", "s.myshopify.com")],
    query := [], urlHost := "app.example.com",
    body := [("product_id", .str "100"), ("rating", .str "7"),
             ("name", .str "Amy"), ("review", .str "Great")],
    mediaFile := none }

/-- The review created from `c4Request`. -/
def c4Created : Review :=
  createdReview c4World "s.myshopify.com" 100 (mkRat 9 2) c4Request.body none

/-- C4, counterexample: a submission with rating `4.5` is accepted with a
200 and the created review carries the non-integer rating 9/2 — refuting
that a rating not parsing to an integer in [1,5] is rejected with
InvalidInput, and that every persisted rating is an integer. -/
theorem C4_counterexample :
    (proxyAction c4Request c4World []).resp.status = 200 ∧
    ((proxyAction c4Request c4World []).created.map Review.rating)
      = some (mkRat 9 2) ∧
    ¬ (mkRat 9 2).den = 1 := by
  decide

/-- C4 (amended): every review the POST handler passes to `create` has a
rating that is the parsed finite value of the submitted rating string and
lies in [1,5] — but integrality is not required; and whenever the rating
string does not parse to a finite number in [1,5] (given that the earlier
product-id validations pass), the handler answers 400
`rating must be between 1 and 5` and creates no row. -/
theorem C4_rating_range_not_integrality :
    (∀ req w db r, (proxyAction req w db).created = some r →
        jsStringToNumber (normRatingRaw req.body) = some r.rating ∧
        1 ≤ r.rating ∧ r.rating ≤ 5) ∧
    (∀ req w db shop,
        req.method = "POST" → getShopFromRequest req = some shop →
        w.parseThrows = false →
        ¬ normProductIdRaw req.body = "" →
        (∃ pid, jsStringToBigInt (normProductIdRaw req.body) = some pid) →
        (∀ q, jsStringToNumber (normRatingRaw req.body) = some q →
            q < 1 ∨ q > 5) →
        (proxyAction req w db).resp
            = safeJson (.errMsg "rating must be between 1 and 5") 400 ∧
        (proxyAction req w db).created = none ∧
        (proxyAction req w db).db = db) := by
  constructor
  · intro req w db r h
    unfold proxyAction doCreate at h
    repeat' split at h
    all_goals simp at h
    all_goals subst h
    all_goals simp_all [createdReview]
  · intro req w db shop hm hshop hp hne hex hbad
    rcases hex with ⟨pid, hbig⟩
    cases hq : jsStringToNumber (normRatingRaw req.body) with
    | none =>
      simp [proxyAction, hm, hshop, hp, hne, hbig, hq]
    | some q =>
      rcases hbad q hq with hlt | hgt
      · simp [proxyAction, hm, hshop, hp, hne, hbig, hq, hlt]
      · simp [proxyAction, hm, hshop, hp, hne, hbig, hq, hgt]

/-- C4 amended claim at concrete inputs: the rating 4.5 submission creates
a row with the parsed in-range rating, and the rating 7 submission is
rejected with the 400 and no row. -/
theorem C4_rating_range_not_integrality_witness :
    (jsStringToNumber (normRatingRaw c4Request.body) = some c4Created.rating ∧
      1 ≤ c4Created.rating ∧ c4Created.rating ≤ 5) ∧
    ((proxyAction c4BadRequest c4World []).resp
        = safeJson (.errMsg "rating must be between 1 and 5") 400 ∧
      (proxyAction c4BadRequest c4World []).created = none ∧
      (proxyAction c4BadRequest c4World []).db = []) :=
  ⟨C4_rating_range_not_integrality.1 c4Request c4World [] c4Created
      (by decide),
   C4_rating_range_not_integrality.2 c4BadRequest c4World [] "s.myshopify.com"
      (by decide) (by decide) (by decide) (by decide) ⟨100, by decide⟩
      (fun q hq => by
        have h7 : jsStringToNumber (normRatingRaw c4BadRequest.body)
            = some (7 : ℚ) := by decide
        rw [h7] at hq
        obtain rfl := Option.some.inj hq
        exact Or.inr (by decide))⟩

/-- C6: both listing endpoints resolve every status-filter value to a
defined status, never to an error: a recognized value (`pending`,
`approved`, `trashed`) is used as-is by both, and any other value,
including an absent parameter, falls back to the endpoint's default —
`approved` for the public GET list, `pending` for the authenticated
moderation list. -/
theorem C6_status_filter_total_fallback (q : Option String) :
    (∀ s st, q = some s → reviewStatusLookup s = some st →
        resolvePublicStatus q = st ∧ resolveAdminStatus q = st) ∧
    ((q = none ∨ ∃ s, q = some s ∧ reviewStatusLookup s = none) →
        resolvePublicStatus q = .approved ∧ resolveAdminStatus q = .pending) := by
  constructor
  · rintro s st rfl hst
    constructor
    · simp [resolvePublicStatus, hst]
    · simp [resolveAdminStatus, hst]
  · rintro (rfl | ⟨s, rfl, hs⟩)
    · exact ⟨by decide, by decide⟩
    · constructor
      · simp only [resolvePublicStatus, Option.getD_some, hs]
        rfl
      · simp only [resolveAdminStatus, Option.getD_some, hs]
        rfl

/-- C6 at concrete inputs: the recognized value `trashed` is used as-is by
both endpoints; the unrecognized value `bogus` falls back to each
endpoint's default. -/
theorem C6_status_filter_total_fallback_witness :
    (resolvePublicStatus (some "trashed") = .trashed ∧
      resolveAdminStatus (some "trashed") = .trashed) ∧
    (resolvePublicStatus (some "bogus") = .approved ∧
      resolveAdminStatus (some "bogus") = .pending) :=
  ⟨(C6_status_filter_total_fallback (some "trashed")).1 "trashed" .trashed
      rfl (by decide),
   (C6_status_filter_total_fallback (some "bogus")).2
      (Or.inr ⟨"bogus", rfl, by decide⟩)⟩

/-- A request carrying no shop header, no shop query parameter, no
forwarded-host and no host header, whose request URL host is a platform
domain. -/
def c7Request : ProxyRequest :=
  { method := "GET", headers := [], query := [], urlHost := "a.myshopify.com",
    body := [], mediaFile := none }

/-- C7, counterexample: with the `x-shopify-shop-domain` header, the `shop`
query parameter, and the forwarded/host headers all absent, the code still
resolves a tenant from the request URL's own host (a fourth source the
claim does not allow) and serves the listing with a 200 instead of failing
with the claimed 401. -/
theorem C7_counterexample :
    headerGet c7Request "x-shopify-shop-domain" = none ∧
    queryGet c7Request "shop" = none ∧
    headerGet c7Request "x-forwarded-host" = none ∧
    headerGet c7Request "host" = none ∧
    getShopFromRequest c7Request = some "a.myshopify.com" ∧
    ¬ (proxyLoader c7Request ⟨false⟩ []).status = 401 := by
  decide

/-- A request resolving its tenant from the shop header. -/
def c7HdrRequest : ProxyRequest :=
  { method := "GET",
    headers := [("x-shopify-shop-domain", "h.myshopify.com")],
    query := [("shop", "ignored.myshopify.com")],
    urlHost := "app.example.com", body := [], mediaFile := none }

/-- A request from which no tenant can be resolved. -/
def c7NoneRequest : ProxyRequest :=
  { method := "GET", headers := [], query := [], urlHost := "app.example.com",
    body := [], mediaFile := none }

/-- C7 (amended): the tenant is resolved in this order, first truthy match
winning: the `x-shopify-shop-domain` header, then the `shop` query
parameter, then the first truthy of the `x-forwarded-host` header, the
`host` header and the request URL's host — accepted if and only if it ends
(case-insensitively) in `.myshopify.com`; when nothing resolves, a
non-pre-flight GET and a POST are both answered 401. -/
theorem C7_tenant_resolution_order :
    (∀ req h, headerGet req "x-shopify-shop-domain" = some h → ¬ h = "" →
        getShopFromRequest req = some h) ∧
    (∀ req q, strTruthy (headerGet req "x-shopify-shop-domain") = false →
        queryGet req "shop" = some q → ¬ q = "" →
        getShopFromRequest req = some q) ∧
    (∀ req hst, strTruthy (headerGet req "x-shopify-shop-domain") = false →
        strTruthy (queryGet req "shop") = false →
        jsOrStr (headerGet req "x-forwarded-host")
            (jsOrStr (headerGet req "host") (some req.urlHost)) = some hst →
        getShopFromRequest req
          = (if !(hst == "") && endsWithMyshopify hst then some hst
             else none)) ∧
    (∀ req w db, ¬ req.method = "OPTIONS" → getShopFromRequest req = none →
        (proxyLoader req w db).status = 401) ∧
    (∀ req w db, req.method = "POST" → getShopFromRequest req = none →
        (proxyAction req w db).resp.status = 401) := by
  refine ⟨?_, ?_, ?_, ?_, ?_⟩
  · intro req h hh hne
    simp [getShopFromRequest, hh, strTruthy, hne]
  · intro req q hhdr hq hne
    simp only [getShopFromRequest]
    rw [hhdr, hq]
    simp [strTruthy, hne]
  · intro req hst hhdr hq hhost
    simp only [getShopFromRequest, hhdr, hq, hhost, Bool.false_eq_true,
      if_false]
  · intro req w db hm hnone
    unfold proxyLoader
    rw [if_neg (by simpa using hm), hnone]
    simp [safeJson]
  · intro req w db hm hnone
    unfold proxyAction
    rw [hm, hnone]
    simp [safeJson]

/-- C7 amended claim at concrete inputs: the header wins over the query
parameter, and an unresolvable request is answered 401. -/
theorem C7_tenant_resolution_order_witness :
    getShopFromRequest c7HdrRequest = some "h.myshopify.com" ∧
    (proxyLoader c7NoneRequest ⟨false⟩ []).status = 401 :=
  ⟨C7_tenant_resolution_order.1 c7HdrRequest "h.myshopify.com"
      (by decide) (by decide),
   C7_tenant_resolution_order.2.2.2.1 c7NoneRequest ⟨false⟩ []
      (by decide) (by decide)⟩

/-- C8: a POST whose multipart `media` file exceeds 20 MiB is rejected with
a 400, no review row is created, no storage upload is attempted, and the
database is unchanged — whatever the other fields contain. -/
theorem C8_oversized_file_rejected (req : ProxyRequest) (w : World)
    (db : List Review) (f : UploadFile) (shop : String)
    (hm : req.method = "POST") (hshop : getShopFromRequest req = some shop)
    (hp : w.parseThrows = false) (hf : req.mediaFile = some f)
    (hsize : 20 * 1024 * 1024 < f.size) :
    (proxyAction req w db).resp.status = 400 ∧
    (proxyAction req w db).created = none ∧
    (proxyAction req w db).didUpload = false ∧
    (proxyAction req w db).db = db := by
  unfold proxyAction doCreate
  rw [hm, hshop, hp, hf]
  repeat' split
  all_goals simp_all [safeJson]
  all_goals omega

/-- An oversized upload (20 MiB + 1 byte) with otherwise valid fields. -/
def c8Request : ProxyRequest :=
  { method := "POST",
    headers := [("x-shopify-shop-domain", "s.myshopify.com")],
    query := [], urlHost := "app.example.com",
    body := [("product_id", .str "100"), ("rating", .str "5"),
             ("name", .str "Amy"), ("review", .str "Great")],
    mediaFile := some { name := "big.mp4", size := 20971521,
                        fileType := "video/mp4" } }

/-- A world with no failures, for C8. -/
def c8World : World :=
  { supabaseConfigured := true, parseThrows := false,
    storage := .uploaded "", createThrows := false, newId := "n1", now := 0 }

/-- C8 at a concrete input: an otherwise fully valid submission with a
20 MiB + 1 file is answered 400 with no row, no upload, and an unchanged
database. -/
theorem C8_oversized_file_rejected_witness :
    (proxyAction c8Request c8World []).resp.status = 400 ∧
    (proxyAction c8Request c8World []).created = none ∧
    (proxyAction c8Request c8World []).didUpload = false ∧
    (proxyAction c8Request c8World []).db = [] :=
  C8_oversized_file_rejected c8Request c8World []
    { name := "big.mp4", size := 20971521, fileType := "video/mp4" }
    "s.myshopify.com" rfl (by decide) rfl rfl (by decide)

/-- A multipart submission carrying both a direct `media_url` body field and
an uploaded file. -/
def c9Request : ProxyRequest :=
  { method := "POST",
    headers := [("x-shopify-shop-domain", "s.myshopify.com")],
    query := [], urlHost := "app.example.com",
    body := [("product_id", .str "100"), ("rating", .str "5"),
             ("name", .str "Amy"), ("review", .str "Great"),
             ("media_url", .str "https://body.example/b.png")],
    mediaFile := some { name := "a.jpg", size := 5,
                        fileType := "image/jpeg" } }

/-- A world whose storage upload succeeds with a public URL, for C9. -/
def c9World : World :=
  { supabaseConfigured := true, parseThrows := false,
    storage := .uploaded "https://cdn.example/pub.jpg",
    createThrows := false, newId := "n1", now := 0 }

/-- The same submission as `c9Request` but without the uploaded file. -/
def c9NoFileRequest : ProxyRequest :=
  { method := "POST",
    headers := [("x-shopify-shop-domain", "s.myshopify.com")],
    query := [], urlHost := "app.example.com",
    body := [("product_id", .str "100"), ("rating", .str "5"),
             ("name", .str "Amy"), ("review", .str "Great"),
             ("media_url", .str "https://body.example/b.png")],
    mediaFile := none }

/-- The review created from `c9Request`. -/
def c9Created : Review :=
  createdReview c9World "s.myshopify.com" 100 5 c9Request.body
    (some "https://cdn.example/pub.jpg")

/-- The review created from `c9NoFileRequest`. -/
def c9NoFileCreated : Review :=
  createdReview c9World "s.myshopify.com" 100 5 c9NoFileRequest.body
    (normMediaUrlFromBody c9NoFileRequest.body)

/-- C9: when a multipart file is present and its upload succeeds with a
non-empty public URL, the created review's `mediaUrl` is that URL — taking
precedence over any `mediaUrl`/`media_url` body field; when no file is
uploaded, the created review's `mediaUrl` is the normalized body value
(or null). -/
theorem C9_media_url_precedence :
    (∀ req w db r f u, req.mediaFile = some f → w.storage = .uploaded u →
        ¬ u = "" → (proxyAction req w db).created = some r →
        r.mediaUrl = some u) ∧
    (∀ req w db r, req.mediaFile = none →
        (proxyAction req w db).created = some r →
        r.mediaUrl = normMediaUrlFromBody req.body) := by
  constructor
  · intro req w db r f u hf hst hu h
    unfold proxyAction doCreate at h
    rw [hf, hst] at h
    dsimp only at h
    repeat' split at h
    all_goals simp at h
    all_goals subst h
    all_goals simp [createdReview, strOrNull, hu]
  · intro req w db r hf h
    unfold proxyAction doCreate at h
    rw [hf] at h
    dsimp only at h
    repeat' split at h
    all_goals simp at h
    all_goals subst h
    all_goals simp [createdReview]

/-- C9 at concrete inputs: with a successful upload the adapter URL wins
over the body's `media_url`; without a file the body value is used. -/
theorem C9_media_url_precedence_witness :
    c9Created.mediaUrl = some "https://cdn.example/pub.jpg" ∧
    c9NoFileCreated.mediaUrl = normMediaUrlFromBody c9NoFileRequest.body :=
  ⟨C9_media_url_precedence.1 c9Request c9World [] c9Created
      { name := "a.jpg", size := 5, fileType := "image/jpeg" }
      "https://cdn.example/pub.jpg" rfl rfl (by decide) (by decide),
   C9_media_url_precedence.2 c9NoFileRequest c9World [] c9NoFileCreated
      rfl (by decide)⟩

/-- Presence of the permissive CORS headers the claim lists, on a
response. -/
def hasCORS (resp : HttpResponse) : Prop :=
  headerLookup resp.headers "Access-Control-Allow-Origin" = some "*" ∧
  headerLookup resp.headers "Access-Control-Allow-Methods"
    = some "GET, POST, OPTIONS" ∧
  headerLookup resp.headers "Access-Control-Allow-Headers"
    = some "Content-Type, Authorization"

/-- C10: every response of the public proxy route — the GET listing and its
error responses, the POST result and its error responses (400/401/405/500),
and the OPTIONS pre-flight alike — carries the permissive CORS headers:
`Access-Control-Allow-Origin: *`, methods `GET, POST, OPTIONS`, headers
`Content-Type, Authorization`. -/
theorem C10_cors_on_every_response (req : ProxyRequest) (lw : LoaderWorld)
    (w : World) (db : List Review) :
    hasCORS (proxyLoader req lw db) ∧ hasCORS (proxyAction req w db).resp := by
  constructor
  · unfold proxyLoader
    repeat' split
    all_goals exact ⟨rfl, rfl, rfl⟩
  · unfold proxyAction doCreate
    repeat' split
    all_goals exact ⟨rfl, rfl, rfl⟩

end Reviews
